import Mathlib

/-!
Verification development for the DriftOS embedding server
(`preprocessing.py`, `nlp_analysis.py`, `server.py`).

The external spaCy analyzer and the sentence encoder are out of scope
(they are pretrained models); they enter the embedding as an abstract
`String → Doc` function and as the `raw_similarity` value (the cosine of
the two request vectors, hence a value in `[-1, 1]`).  Everything the
Python sources compute on top of them — the preprocessor, the weighted
entity extractor, the overlap scorer, the anaphoric-floor suppression
predicate, the boost pipeline of `/analyze-drift`, and the `/drift`
action mapping — is translated here function by function, with Python
floats modelled as exact rationals.
-/

namespace DriftOS

/-! ## Python string primitives -/

/-- Python `\s` / `str.split()` whitespace (ASCII range). -/
def pyIsSpace (c : Char) : Bool :=
  c = ' ' || c = '\t' || c = '\n' || c = '\r' || c = '\x0b' || c = '\x0c'

/-- Python regex `\w` word character (ASCII range). -/
def isWordChar (c : Char) : Bool := c.isAlphanum || c = '_'

/-- Python `str.lower()` (ASCII range). -/
def sLower (s : String) : String := s.map Char.toLower

/-- Python `str.split()` with no argument: split on whitespace runs,
dropping empty pieces. -/
def pySplit (s : String) : List String :=
  (s.split pyIsSpace).filter (fun w => w ≠ "")

/-- Models the Python test `not text or not text.strip()`:
true iff the string is empty or all-whitespace. -/
def isBlank (s : String) : Bool := s.toList.all pyIsSpace

/-- Collapse runs of `' '` into a single `' '`
(the text has already had every whitespace char mapped to `' '`). -/
def squeezeSpaces : List Char → List Char
  | [] => []
  | [c] => [c]
  | a :: b :: rest =>
    if a = ' ' && b = ' ' then squeezeSpaces (b :: rest)
    else a :: squeezeSpaces (b :: rest)

/-- Drop `' '` from both ends of a character list. -/
def trimSpaceEnds (cs : List Char) : List Char :=
  ((cs.dropWhile (fun c => c = ' ')).reverse.dropWhile (fun c => c = ' ')).reverse

/-- The cleaning step shared by `preprocess` and `preprocess_batch`:
`text.lower()`, then `re.sub(r"[^\w\s]", " ", text)`, then
`re.sub(r"\s+", " ", text).strip()`. -/
def cleanText (s : String) : String :=
  let cs := (sLower s).toList
  let cs := cs.map (fun c => if isWordChar c || pyIsSpace c then c else ' ')
  let cs := cs.map (fun c => if pyIsSpace c then ' ' else c)
  ⟨trimSpaceEnds (squeezeSpaces cs)⟩

/-! ## Word-boundary regex search

Both regexes used directly by `server.py` on raw request text
(`ANAPHORIC_PATTERNS`, `TOPIC_PIVOT_PATTERNS`) are case-insensitive
alternations of literal phrases wrapped in `\b … \b`.  We implement
`re.search` for that fragment: a phrase matches at a position iff the
characters agree and a `\b` boundary (word-char on exactly one side)
holds before and after it. -/

def isWOpt : Option Char → Bool
  | none => false
  | some c => isWordChar c

/-- Boundary `\b` between two (optional) neighbouring characters. -/
def wordBoundary (x y : Option Char) : Bool := isWOpt x != isWOpt y

/-- Does phrase `p` match at the current position (`prev` = the char just
before the position, `cs` = the rest of the text)? -/
def matchPhraseHere (p : List Char) (prev : Option Char) (cs : List Char) : Bool :=
  wordBoundary prev p.head? && p.isPrefixOf cs &&
    wordBoundary p.getLast? (cs.drop p.length).head?

/-- Scan the text for a match of phrase `p` (the `re.search` loop). -/
def searchPhrase (p : List Char) : Option Char → List Char → Bool
  | prev, [] => matchPhraseHere p prev []
  | prev, c :: rest => matchPhraseHere p prev (c :: rest) || searchPhrase p (some c) rest

/-- Python `re.search` (IGNORECASE) of an alternation of literal phrases. -/
def regexFound (phrases : List String) (text : String) : Bool :=
  let cs := (sLower text).toList
  phrases.any (fun p => searchPhrase (sLower p).toList none cs)

/-- A single apostrophe character. -/
def apos : String := String.singleton (Char.ofNat 39)

/-! ## `preprocessing.py` -/

/-- A token of the external analyzer's parsed document (spaCy `Token`):
the attributes the repository reads. -/
structure Token where
  text : String
  lemma_ : String
  pos : String
  is_stop : Bool
  is_punct : Bool
  is_space : Bool
deriving DecidableEq

/-- A named-entity span (spaCy `Span` from `doc.ents`). -/
structure Ent where
  text : String
  label : String
deriving DecidableEq

/-- A noun chunk (spaCy `Span` from `doc.noun_chunks`). -/
structure Chunk where
  text : String
  tokens : List Token
deriving DecidableEq

/-- A parsed document of the external analyzer (spaCy `Doc`): the
attributes the repository reads. -/
structure Doc where
  text : String
  tokens : List Token
  ents : List Ent
  noun_chunks : List Chunk
deriving DecidableEq

/-- Source `preprocessing.REMOVE_WORDS`, verbatim. -/
def REMOVE_WORDS : List String :=
  ["a", "an", "the", "this", "that", "these", "those", "some", "any",
   "please", "pls", "plz", "thanks", "thank", "thankyou", "ty", "sorry",
   "just", "really", "very", "quite", "kind", "kinda", "sort", "sortof",
   "actually", "basically", "literally", "so", "much", "um", "uh", "well",
   "like", "ok", "okay", "yeah", "yes", "no", "right",
   "can", "could", "would", "should", "do", "be", "have", "will",
   "wonder", "maybe", "perhaps", "possible", "possibly",
   "get", "go", "come", "let", "make", "take", "give", "need", "want",
   "know", "think", "see", "look", "find", "tell", "say", "ask",
   "i", "me", "my", "mine", "we", "us", "our", "ours",
   "you", "your", "yours", "he", "him", "his", "she", "her", "hers",
   "it", "its", "they", "them", "their", "theirs",
   "-pron-",
   "here", "there", "now", "then", "where", "when", "what", "how", "why", "which",
   "to", "of", "in", "for", "on", "with", "at", "by", "from", "as",
   "and", "or", "but", "if", "because", "while", "although"]

/-- The `basic_filter` set of the preprocessor fallback. -/
def basicFilter : List String :=
  ["um", "uh", "like", "just", "really", "actually", "basically"]

/-- The token filter of `preprocess` / `preprocess_batch`: keep the
lowercased lemma iff it is not in `REMOVE_WORDS`, has length > 1, and the
token is neither punctuation nor whitespace. -/
def keptLemmas (doc : Doc) : List String :=
  doc.tokens.filterMap (fun tok =>
    let lem := sLower tok.lemma_
    if lem ∉ REMOVE_WORDS ∧ 1 < lem.length ∧ tok.is_punct = false ∧ tok.is_space = false
    then some lem else none)

/-- The fallback of the preprocessor: re-split the given text, dropping
only `basic_filter` words and tokens of length ≤ 1. -/
def fallbackJoin (txt : String) : String :=
  " ".intercalate ((pySplit txt).filter (fun t => t ∉ basicFilter ∧ 1 < t.length))

/-- Source `preprocessing.preprocess`, parametrized by the external analyzer
`nlp : String → Doc`. -/
def preprocess (nlp : String → Doc) (text : String) : String :=
  if isBlank text then ""
  else
    let cleaned := cleanText text
    let doc := nlp cleaned
    let lemmas := keptLemmas doc
    if lemmas.length < 2 then fallbackJoin cleaned
    else " ".intercalate lemmas

/-- Source `preprocessing.preprocess_batch`: clean each text (empty/whitespace
inputs map to `""`), pipe the cleaned texts through the analyzer
(`nlp.pipe` modelled as `map nlp`), and apply the same token filter and
fallback — except that the fallback re-splits `doc.text`. -/
def preprocess_batch (nlp : String → Doc) (texts : List String) : List String :=
  if texts.isEmpty then []
  else
    let cleaned := texts.map (fun t => if isBlank t then "" else cleanText t)
    (cleaned.map nlp).map (fun doc =>
      let lemmas := keptLemmas doc
      if lemmas.length < 2 then fallbackJoin doc.text
      else " ".intercalate lemmas)

/-! ## `nlp_analysis.py` -/

/-- Source `nlp_analysis.WeightedEntity` (identity is by `lemma_`). -/
structure WeightedEntity where
  text : String
  lemma_ : String
  entity_type : String
  weight : ℚ
deriving DecidableEq

/-- Source `nlp_analysis.EntityAnalysis`. -/
structure EntityAnalysis where
  entities : List WeightedEntity
  total_weight : ℚ
  high_value_entities : List String
deriving DecidableEq

/-- Method `EntityAnalysis.get_entity_set`: the set of entity lemmas (a Python
`set`, modelled as a deduplicated list with membership semantics). -/
def get_entity_set (a : EntityAnalysis) : List String :=
  (a.entities.map (fun e => e.lemma_)).dedup

/-- Source `nlp_analysis.ENTITY_WEIGHTS`, verbatim. -/
def ENTITY_WEIGHTS : List (String × ℚ) :=
  [("PERSON", 3), ("ORG", 2.5), ("GPE", 2.5), ("LOC", 2), ("PRODUCT", 2),
   ("EVENT", 2), ("WORK_OF_ART", 1.5), ("NORP", 1.5), ("FAC", 1.5),
   ("DATE", 0.5), ("TIME", 0.5), ("MONEY", 0.5), ("QUANTITY", 0.3),
   ("CARDINAL", 0.2), ("ORDINAL", 0.2)]

/-- Lookup `ENTITY_WEIGHTS.get(label, 1.0)`. -/
def entityWeightOf (label : String) : ℚ :=
  ((ENTITY_WEIGHTS.find? (fun p => p.1 = label)).map Prod.snd).getD 1

def DEFAULT_NOUN_WEIGHT : ℚ := 1
def DEFAULT_PROPN_WEIGHT : ℚ := 2

/-- The accumulating state of `extract_weighted_entities`:
the entity list built so far and the `seen_lemmas` set. -/
structure ExtState where
  entities : List WeightedEntity
  seen : List String
deriving DecidableEq

/-- Pass 1 of `extract_weighted_entities`: one NER span. -/
def stepEnt (st : ExtState) (ent : Ent) : ExtState :=
  let lem := sLower ent.text
  if lem ∉ st.seen ∧ 2 < lem.length then
    ⟨st.entities ++ [⟨ent.text, lem, ent.label, entityWeightOf ent.label⟩],
     st.seen ++ [lem]⟩
  else st

/-- Pass 2 of `extract_weighted_entities`: one token (bare nouns and
proper nouns not caught by NER). -/
def stepTok (st : ExtState) (tok : Token) : ExtState :=
  let lem := sLower tok.lemma_
  if lem ∈ st.seen ∨ lem.length ≤ 3 then st
  else if tok.is_stop then st
  else if tok.pos = "PROPN" then
    ⟨st.entities ++ [⟨tok.text, lem, "PROPN", DEFAULT_PROPN_WEIGHT⟩], st.seen ++ [lem]⟩
  else if tok.pos = "NOUN" then
    ⟨st.entities ++ [⟨tok.text, lem, "NOUN", DEFAULT_NOUN_WEIGHT⟩], st.seen ++ [lem]⟩
  else st

/-- Pass 3 of `extract_weighted_entities`: one noun chunk. -/
def stepChunk (st : ExtState) (ch : Chunk) : ExtState :=
  let lem := sLower ch.text
  if lem ∉ st.seen ∧ 4 < lem.length then
    let has_propn := ch.tokens.any (fun t => t.pos = "PROPN")
    let w := if has_propn then DEFAULT_PROPN_WEIGHT else DEFAULT_NOUN_WEIGHT
    ⟨st.entities ++ [⟨ch.text, lem, "NOUN_CHUNK", w⟩], st.seen ++ [lem]⟩
  else st

/-- Source `nlp_analysis.extract_weighted_entities`: three passes (NER spans,
bare nouns/proper nouns, noun chunks), never adding a lemma twice. -/
def extract_weighted_entities (d : Doc) : EntityAnalysis :=
  let st1 := d.ents.foldl stepEnt ⟨[], []⟩
  let st2 := d.tokens.foldl stepTok st1
  let st3 := d.noun_chunks.foldl stepChunk st2
  ⟨st3.entities,
   (st3.entities.map (fun e => e.weight)).sum,
   (st3.entities.filter (fun e => decide ((2 : ℚ) ≤ e.weight))).map (fun e => e.lemma_)⟩

/-- Source `nlp_analysis.MessageAnalysis`, restricted to the attributes read by
`server.py` and `should_suppress_anaphoric_floor` (the per-sentence list
is consumed only inside the external-analyzer-driven aggregation). -/
structure MessageAnalysis where
  is_question : Bool
  has_anaphoric_ref : Bool
  has_preference : Bool
  has_topic_pivot : Bool
  all_entities : EntityAnalysis
  is_compound : Bool
  pivot_detected : Bool
  preferred_entity : Option String
  rejected_entity : Option String
deriving DecidableEq

/-- Source `nlp_analysis.calculate_entity_overlap`:
returns `(overlap_score, shared_entities, new_entity_weight)`. -/
def calculate_entity_overlap (current_entities previous_entities : EntityAnalysis) :
    ℚ × List String × ℚ :=
  let current_set := get_entity_set current_entities
  let previous_set := get_entity_set previous_entities
  let shared := current_set.filter (fun l => decide (l ∈ previous_set))
  let new_entities := current_set.filter (fun l => decide (l ∉ previous_set))
  let shared_weight :=
    ((current_entities.entities.filter (fun e => decide (e.lemma_ ∈ shared))).map
      (fun e => e.weight)).sum
  let new_weight :=
    ((current_entities.entities.filter (fun e => decide (e.lemma_ ∈ new_entities))).map
      (fun e => e.weight)).sum
  let overlap_score :=
    if current_entities.total_weight = 0 then 0
    else shared_weight / current_entities.total_weight
  (overlap_score, shared, new_weight)

/-- Source `nlp_analysis.should_suppress_anaphoric_floor`. -/
def should_suppress_anaphoric_floor (current_analysis : MessageAnalysis)
    (previous_entities : EntityAnalysis) : Bool :=
  if current_analysis.has_preference then true
  else if current_analysis.has_topic_pivot then true
  else if current_analysis.pivot_detected then true
  else
    let current_set := get_entity_set current_analysis.all_entities
    let previous_set := get_entity_set previous_entities
    let new_entities := current_set.filter (fun l => decide (l ∉ previous_set))
    let new_weight :=
      ((current_analysis.all_entities.entities.filter
          (fun e => decide (e.lemma_ ∈ new_entities))).map (fun e => e.weight)).sum
    if (4 : ℚ) ≤ new_weight then true
    else
      let high_value_new := current_analysis.all_entities.entities.filter
        (fun e => decide (e.lemma_ ∈ new_entities) && decide ((2 : ℚ) ≤ e.weight))
      if 2 ≤ high_value_new.length then true
      else false

/-! ## `server.py` -/

/-- Source `server.ANAPHORIC_PATTERNS`:
`\b(that'?s?|this|it'?s?|those|these|the same|them|its)\b` (IGNORECASE),
expanded into its literal alternatives (the optional apostrophe and `s`
give four variants each for `that` and `it`). -/
def ANAPHORIC_PATTERNS : List String :=
  ["that", "that" ++ apos, "thats", "that" ++ apos ++ "s",
   "this",
   "it", "it" ++ apos, "its", "it" ++ apos ++ "s",
   "those", "these", "the same", "them", "its"]

/-- Source `nlp_analysis.TOPIC_PIVOT_PATTERNS` (IGNORECASE), as its literal
alternatives. -/
def TOPIC_PIVOT_PATTERNS : List String :=
  ["back to", "returning to", "going back to", "anyway", "speaking of",
   "on another note", "changing topic", "different subject", "but about",
   "so about", "regarding"]

/-- Boost factors and floors of `server.py`, verbatim. -/
def QA_BOOST_FACTOR : ℚ := 1.3
def RECENCY_BOOST_FACTOR : ℚ := 1.6
def ANAPHORIC_BOOST_FACTOR : ℚ := 1.5
def TOPIC_RETURN_BOOST_FACTOR : ℚ := 2.5
def ENTITY_OVERLAP_BOOST_FACTOR : ℚ := 2
def ANAPHORIC_SIMILARITY_FLOOR : ℚ := 0.45
def SHORT_RESPONSE_FLOOR : ℚ := 0.5
def SHORT_RESPONSE_MAX_WORDS : ℕ := 3
def RESPONSE_PARTICLE_FLOOR : ℚ := 0.55

/-- Source `server.RESPONSE_PARTICLES`, verbatim. -/
def RESPONSE_PARTICLES : List String :=
  ["yes", "yeah", "yep", "yup", "ya", "aye", "sure", "ok", "okay", "k",
   "absolutely", "definitely", "certainly", "indeed", "right", "correct",
   "agreed", "exactly", "true", "totally", "yea",
   "no", "nope", "nah", "never", "negative",
   "thanks", "thank", "thx", "ty", "cheers", "cool", "nice", "great",
   "awesome", "perfect", "wonderful", "excellent", "good", "fine",
   "maybe", "perhaps", "possibly", "probably", "idk", "dunno",
   "please", "pls", "plz", "go", "continue", "more", "next",
   "well", "so", "anyway", "alright", "hmm", "hm", "oh", "ah", "uh"]

/-- Python `w.lower().strip('.,!?')`. -/
def stripDotPunct (w : String) : String :=
  let punct : List Char := ['.', ',', '!', '?']
  let cs := w.toList
  ⟨((cs.dropWhile (fun c => c ∈ punct)).reverse.dropWhile (fun c => c ∈ punct)).reverse⟩

/-- The list `words = [w.lower().strip('.,!?') for w in request.current.split()]`. -/
def pyWords (s : String) : List String :=
  (pySplit s).map (fun w => stripDotPunct (sLower w))

/-- Insert a string into a sorted list (using the `Ord String` order),
for Python's `sorted()`. -/
def insertSorted (s : String) : List String → List String
  | [] => [s]
  | x :: xs =>
    match compare s x with
    | Ordering.gt => x :: insertSorted s xs
    | _ => s :: x :: xs

/-- Python `sorted(list(...))` on a list of strings. -/
def sortStrings (l : List String) : List String := l.foldr insertSorted []

/-- The `EntityOverlap` response model of `server.py`. -/
structure EntityOverlap where
  has_overlap : Bool
  overlap_score : ℚ
  shared_entities : List String
deriving DecidableEq

/-- The `AnalyzeMessageResponse` model of `server.py`
(`has_preference` defaults to false, the two entity fields to `None`). -/
structure AnalyzeMessageResponse where
  current_is_question : Bool
  previous_is_question : Bool
  current_has_anaphoric_ref : Bool
  has_topic_return_signal : Bool
  has_preference : Bool
  preferred_entity : Option String
  rejected_entity : Option String
  entity_overlap : EntityOverlap
deriving DecidableEq

/-- The `AnalyzeDriftResponse` model of `server.py`. -/
structure AnalyzeDriftResponse where
  raw_similarity : ℚ
  boosted_similarity : ℚ
  boost_multiplier : ℚ
  boosts_applied : List String
  analysis : AnalyzeMessageResponse
deriving DecidableEq

/-- The `/analyze-message` handler (`server.analyze_message`),
parametrized by the external analyzer's `MessageAnalysis` of the two
texts; only the regex fallbacks touch the raw current text, and they are
computed here. -/
def analyze_message (current_analysis previous_analysis : MessageAnalysis)
    (current : String) : AnalyzeMessageResponse :=
  let ov := calculate_entity_overlap current_analysis.all_entities
    previous_analysis.all_entities
  let overlap_score := ov.1
  let shared_entities := ov.2.1
  ⟨current_analysis.is_question,
   previous_analysis.is_question,
   current_analysis.has_anaphoric_ref || regexFound ANAPHORIC_PATTERNS current,
   current_analysis.has_topic_pivot || regexFound TOPIC_PIVOT_PATTERNS current,
   current_analysis.has_preference,
   current_analysis.preferred_entity,
   current_analysis.rejected_entity,
   ⟨decide (shared_entities.length > 0), min overlap_score 1, sortStrings shared_entities⟩⟩

/-- Boost 0a / 0b of `server.analyze_drift`: the response-particle floor
and, failing that (`elif`), the ultra-short-response floor. -/
def floorStep (words : List String) (currentIsQuestion : Bool)
    (st : ℚ × List String) : ℚ × List String :=
  let first_word := words.headD ""
  if first_word ∈ RESPONSE_PARTICLES ∧ words.length ≤ 4 then
    (max st.1 RESPONSE_PARTICLE_FLOOR, st.2 ++ ["response_particle"])
  else if words.length ≤ 2 ∧ currentIsQuestion = false then
    (max st.1 SHORT_RESPONSE_FLOOR, st.2 ++ ["ultra_short_response"])
  else st

/-- Boost 1 of `server.analyze_drift`: the Q&A pair rule. -/
def qaStep (previousIsQuestion currentIsQuestion : Bool) (nWords : ℕ)
    (st : ℚ × List String) : ℚ × List String :=
  if previousIsQuestion = true ∧ currentIsQuestion = false ∧ nWords ≤ 10 then
    (st.1 * QA_BOOST_FACTOR, st.2 ++ ["qa_pair"])
  else st

/-- Boost 2 of `server.analyze_drift`: the anaphoric-reference rule with
smart floor suppression. -/
def anaphoricStep (current_analysis : MessageAnalysis)
    (previous_entities : EntityAnalysis) (st : ℚ × List String) : ℚ × List String :=
  if current_analysis.has_anaphoric_ref then
    if should_suppress_anaphoric_floor current_analysis previous_entities then
      (st.1 * ANAPHORIC_BOOST_FACTOR, st.2 ++ ["anaphoric_ref_weak"])
    else
      (max st.1 ANAPHORIC_SIMILARITY_FLOOR * ANAPHORIC_BOOST_FACTOR,
       st.2 ++ ["anaphoric_ref"])
  else st

/-- Boost 3 of `server.analyze_drift`: the follow-up question rule. -/
def questionStep (currentIsQuestion : Bool) (st : ℚ × List String) :
    ℚ × List String :=
  if currentIsQuestion then (st.1 * RECENCY_BOOST_FACTOR, st.2 ++ ["question"])
  else st

/-- Boost 4 of `server.analyze_drift`: the weighted entity-overlap rule. -/
def overlapStep (hasEntityOverlap : Bool) (overlap_score : ℚ)
    (st : ℚ × List String) : ℚ × List String :=
  if hasEntityOverlap then
    (st.1 * (1 + (ENTITY_OVERLAP_BOOST_FACTOR - 1) * min overlap_score 1),
     st.2 ++ ["entity_overlap"])
  else st

/-- The `/analyze-drift` handler (`server.analyze_drift`), parametrized
by the external analyzer's `MessageAnalysis` of the two texts and by
`raw_similarity` — the cosine of the request's `current_embedding` and
`branch_centroid` (a value in `[-1, 1]`, or `0.0` for a zero norm). -/
def analyze_drift (current : String)
    (current_analysis previous_analysis : MessageAnalysis)
    (raw_similarity : ℚ) : AnalyzeDriftResponse :=
  let ov := calculate_entity_overlap current_analysis.all_entities
    previous_analysis.all_entities
  let overlap_score := ov.1
  let shared_entities := ov.2.1
  let has_entity_overlap := decide (shared_entities.length > 0)
  let has_topic_pivot := current_analysis.has_topic_pivot ||
    regexFound TOPIC_PIVOT_PATTERNS current
  let overlapView : EntityOverlap :=
    ⟨has_entity_overlap, min overlap_score 1, sortStrings shared_entities⟩
  if current_analysis.has_preference then
    ⟨raw_similarity, raw_similarity, 1, ["preference_detected"],
     ⟨current_analysis.is_question, previous_analysis.is_question,
      current_analysis.has_anaphoric_ref, has_topic_pivot, true,
      current_analysis.preferred_entity, current_analysis.rejected_entity,
      overlapView⟩⟩
  else if has_topic_pivot then
    ⟨raw_similarity, raw_similarity, 1, [],
     ⟨current_analysis.is_question, previous_analysis.is_question,
      current_analysis.has_anaphoric_ref, has_topic_pivot, false, none, none,
      overlapView⟩⟩
  else
    let words := pyWords current
    let st := floorStep words current_analysis.is_question (raw_similarity, [])
    let st := qaStep previous_analysis.is_question current_analysis.is_question
      words.length st
    let st := anaphoricStep current_analysis previous_analysis.all_entities st
    let st := questionStep current_analysis.is_question st
    let st := overlapStep has_entity_overlap overlap_score st
    let boosted := min st.1 1
    let boost_multiplier := if raw_similarity > 0 then boosted / raw_similarity else 1
    ⟨raw_similarity, boosted, boost_multiplier, st.2,
     ⟨current_analysis.is_question, previous_analysis.is_question,
      current_analysis.has_anaphoric_ref, has_topic_pivot,
      current_analysis.has_preference, current_analysis.preferred_entity,
      current_analysis.rejected_entity, overlapView⟩⟩

/-- The threshold-to-action mapping of the `/drift` handler
(`server.check_drift`). -/
def driftAction (sim stay_threshold branch_threshold : ℚ) : String :=
  if sim > stay_threshold then "STAY"
  else if sim > branch_threshold then "BRANCH_SAME_CLUSTER"
  else "BRANCH_NEW_CLUSTER"

/-- Rank of a drift action, for stating monotonicity
(`BRANCH_NEW_CLUSTER < BRANCH_SAME_CLUSTER < STAY`). -/
def actionRank (a : String) : ℕ :=
  if a = "BRANCH_NEW_CLUSTER" then 0
  else if a = "BRANCH_SAME_CLUSTER" then 1
  else 2

/-! ## Helper lemmas -/

/-- The invariant maintained by the three extraction passes: the lemmas
collected so far are pairwise distinct, and every collected lemma has
been recorded in `seen_lemmas`. -/
def ExtInv (st : ExtState) : Prop :=
  (st.entities.map (fun e => e.lemma_)).Nodup ∧
    ∀ e ∈ st.entities, e.lemma_ ∈ st.seen

theorem extInv_nil : ExtInv ⟨[], []⟩ := by
  constructor
  · simp
  · intro e he; simp at he

theorem extInv_push {st : ExtState} (e : WeightedEntity) (h : ExtInv st)
    (hfresh : e.lemma_ ∉ st.seen) :
    ExtInv ⟨st.entities ++ [e], st.seen ++ [e.lemma_]⟩ := by
  obtain ⟨hnd, hseen⟩ := h
  constructor
  · simp only [List.map_append, List.map_cons, List.map_nil]
    rw [List.nodup_append]
    refine ⟨hnd, List.nodup_singleton _, ?_⟩
    intro x hx hx'
    simp only [List.mem_singleton] at hx'
    subst hx'
    obtain ⟨e', he', he'x⟩ := List.mem_map.mp hx
    exact hfresh (he'x ▸ hseen e' he')
  · intro x hx
    rcases List.mem_append.mp hx with h1 | h1
    · exact List.mem_append.mpr (Or.inl (hseen x h1))
    · simp only [List.mem_singleton] at h1
      subst h1
      exact List.mem_append.mpr (Or.inr (by simp))

theorem stepEnt_inv (st : ExtState) (ent : Ent) (h : ExtInv st) :
    ExtInv (stepEnt st ent) := by
  simp only [stepEnt]
  split_ifs with hc
  · exact extInv_push _ h hc.1
  · exact h

theorem stepTok_inv (st : ExtState) (tok : Token) (h : ExtInv st) :
    ExtInv (stepTok st tok) := by
  simp only [stepTok]
  split_ifs with h1 h2 h3 h4 <;>
    first
      | exact h
      | exact extInv_push _ h (not_or.mp h1).1

theorem stepChunk_inv (st : ExtState) (ch : Chunk) (h : ExtInv st) :
    ExtInv (stepChunk st ch) := by
  simp only [stepChunk]
  split_ifs with hc hp
  · exact extInv_push _ h hc.1
  · exact extInv_push _ h hc.1
  · exact h

theorem foldl_extInv {α : Type} (f : ExtState → α → ExtState)
    (hf : ∀ st a, ExtInv st → ExtInv (f st a)) :
    ∀ (l : List α) (st : ExtState), ExtInv st → ExtInv (l.foldl f st)
  | [], _, h => h
  | a :: l, st, h => foldl_extInv f hf l (f st a) (hf st a h)

theorem extract_state_inv (d : Doc) :
    ExtInv (d.noun_chunks.foldl stepChunk
      (d.tokens.foldl stepTok (d.ents.foldl stepEnt ⟨[], []⟩))) :=
  foldl_extInv stepChunk stepChunk_inv _ _
    (foldl_extInv stepTok stepTok_inv _ _
      (foldl_extInv stepEnt stepEnt_inv _ _ extInv_nil))

/-- Every value in the `ENTITY_WEIGHTS` table is positive, so the
`dict.get(label, 1.0)` lookup is always positive. -/
theorem entityWeightOf_pos (label : String) : 0 < entityWeightOf label := by
  unfold entityWeightOf
  cases hf : ENTITY_WEIGHTS.find? (fun p => p.1 = label) with
  | none => simp
  | some p =>
    have hp : p ∈ ENTITY_WEIGHTS := List.mem_of_find?_eq_some hf
    have hpos : (0 : ℚ) < p.2 := by fin_cases hp <;> norm_num
    simpa using hpos

/-- All weights produced by the extractor are positive. -/
def ExtWPos (st : ExtState) : Prop := ∀ e ∈ st.entities, 0 < e.weight

theorem extWPos_push {st : ExtState} (e : WeightedEntity) (h : ExtWPos st)
    (he : 0 < e.weight) (seen' : List String) :
    ExtWPos ⟨st.entities ++ [e], seen'⟩ := by
  intro x hx
  rcases List.mem_append.mp hx with h1 | h1
  · exact h x h1
  · simp only [List.mem_singleton] at h1
    subst h1; exact he

theorem stepEnt_wpos (st : ExtState) (ent : Ent) (h : ExtWPos st) :
    ExtWPos (stepEnt st ent) := by
  simp only [stepEnt]
  split_ifs with hc
  · exact extWPos_push _ h (entityWeightOf_pos _) _
  · exact h

theorem stepTok_wpos (st : ExtState) (tok : Token) (h : ExtWPos st) :
    ExtWPos (stepTok st tok) := by
  simp only [stepTok]
  split_ifs with h1 h2 h3 h4 <;>
    first
      | exact h
      | exact extWPos_push _ h
          (by norm_num [DEFAULT_PROPN_WEIGHT, DEFAULT_NOUN_WEIGHT]) _

theorem stepChunk_wpos (st : ExtState) (ch : Chunk) (h : ExtWPos st) :
    ExtWPos (stepChunk st ch) := by
  simp only [stepChunk]
  split_ifs with hc hp
  · exact extWPos_push _ h (by norm_num [DEFAULT_PROPN_WEIGHT]) _
  · exact extWPos_push _ h (by norm_num [DEFAULT_NOUN_WEIGHT]) _
  · exact h

theorem foldl_extWPos {α : Type} (f : ExtState → α → ExtState)
    (hf : ∀ st a, ExtWPos st → ExtWPos (f st a)) :
    ∀ (l : List α) (st : ExtState), ExtWPos st → ExtWPos (l.foldl f st)
  | [], _, h => h
  | a :: l, st, h => foldl_extWPos f hf l (f st a) (hf st a h)

/-- The extractor only ever emits positive weights; in particular every
`EntityAnalysis` reaching the overlap scorer or the boost engine has
nonnegative weights and a nonnegative total. -/
theorem extract_weights_pos (d : Doc) :
    ∀ e ∈ (extract_weighted_entities d).entities, 0 < e.weight := by
  have : ExtWPos (d.noun_chunks.foldl stepChunk
      (d.tokens.foldl stepTok (d.ents.foldl stepEnt ⟨[], []⟩))) :=
    foldl_extWPos stepChunk stepChunk_wpos _ _
      (foldl_extWPos stepTok stepTok_wpos _ _
        (foldl_extWPos stepEnt stepEnt_wpos _ _ (by intro e he; simp at he)))
  exact this

theorem extract_total_nonneg (d : Doc) :
    0 ≤ (extract_weighted_entities d).total_weight := by
  have h := extract_weights_pos d
  show 0 ≤ ((extract_weighted_entities d).entities.map (fun e => e.weight)).sum
  apply List.sum_nonneg
  intro x hx
  obtain ⟨e, he, rfl⟩ := List.mem_map.mp hx
  exact le_of_lt (h e he)

theorem mem_get_entity_set (a : EntityAnalysis) (l : String) :
    l ∈ get_entity_set a ↔ l ∈ a.entities.map (fun e => e.lemma_) := by
  simp [get_entity_set]

/-- Normal form of the overlap scorer: membership of an entity's lemma in
the `shared` / `new_entities` sets reduces to membership in the previous
message's lemma list. -/
theorem calculate_entity_overlap_eq (cur prev : EntityAnalysis) :
    calculate_entity_overlap cur prev =
      ((if cur.total_weight = 0 then 0
        else ((cur.entities.filter (fun e =>
          decide (e.lemma_ ∈ prev.entities.map (fun x => x.lemma_)))).map
            (fun e => e.weight)).sum / cur.total_weight),
       (get_entity_set cur).filter (fun l => decide (l ∈ get_entity_set prev)),
       ((cur.entities.filter (fun e =>
          decide (e.lemma_ ∉ prev.entities.map (fun x => x.lemma_)))).map
            (fun e => e.weight)).sum) := by
  simp only [calculate_entity_overlap]
  have hshared : cur.entities.filter (fun e =>
        decide (e.lemma_ ∈ (get_entity_set cur).filter
          (fun l => decide (l ∈ get_entity_set prev)))) =
      cur.entities.filter (fun e =>
        decide (e.lemma_ ∈ prev.entities.map (fun x => x.lemma_))) := by
    apply List.filter_congr
    intro e he
    have hc : e.lemma_ ∈ get_entity_set cur :=
      (mem_get_entity_set cur e.lemma_).mpr (List.mem_map_of_mem _ he)
    simp [List.mem_filter, hc, mem_get_entity_set]
  have hnew : cur.entities.filter (fun e =>
        decide (e.lemma_ ∈ (get_entity_set cur).filter
          (fun l => decide (l ∉ get_entity_set prev)))) =
      cur.entities.filter (fun e =>
        decide (e.lemma_ ∉ prev.entities.map (fun x => x.lemma_))) := by
    apply List.filter_congr
    intro e he
    have hc : e.lemma_ ∈ get_entity_set cur :=
      (mem_get_entity_set cur e.lemma_).mpr (List.mem_map_of_mem _ he)
    simp [List.mem_filter, hc, mem_get_entity_set]
  rw [hshared, hnew]

theorem overlap_score_nonneg (cur prev : EntityAnalysis)
    (hW : ∀ e ∈ cur.entities, 0 ≤ e.weight)
    (hT : 0 ≤ cur.total_weight) :
    0 ≤ (calculate_entity_overlap cur prev).1 := by
  rw [calculate_entity_overlap_eq]
  dsimp only
  split_ifs with h0
  · exact le_refl 0
  · apply div_nonneg _ hT
    apply List.sum_nonneg
    intro x hx
    obtain ⟨e, he, rfl⟩ := List.mem_map.mp hx
    exact hW e (List.mem_of_mem_filter he)

/-! ## Shared concrete fixtures -/

/-- An empty entity analysis (a message with no extracted entities). -/
def emptyEntityAnalysis : EntityAnalysis := ⟨[], 0, []⟩

/-- An analyzer verdict with every flag false and no entities. -/
def plainAnalysis : MessageAnalysis :=
  ⟨false, false, false, false, emptyEntityAnalysis, false, false, none, none⟩

/-! ## Claims -/

/-- C6: for every parsed document, `extract_weighted_entities` returns an
`EntityAnalysis` whose entity lemmas are pairwise distinct, whose
`total_weight` is the sum of the listed weights, and whose high-value
collection is exactly the lemmas of entities of weight ≥ 2.0. -/
theorem c6_entity_analysis_invariants (d : Doc) :
    ((extract_weighted_entities d).entities.map (fun e => e.lemma_)).Nodup ∧
    (extract_weighted_entities d).total_weight =
      ((extract_weighted_entities d).entities.map (fun e => e.weight)).sum ∧
    ∀ l, l ∈ (extract_weighted_entities d).high_value_entities ↔
      ∃ e ∈ (extract_weighted_entities d).entities, e.lemma_ = l ∧ (2 : ℚ) ≤ e.weight := by
  refine ⟨(extract_state_inv d).1, rfl, ?_⟩
  intro l
  show l ∈ (((_ : ExtState).entities.filter _).map _) ↔ _
  simp only [List.mem_map, List.mem_filter, decide_eq_true_eq]
  constructor
  · rintro ⟨e, ⟨he, hw⟩, rfl⟩
    exact ⟨e, he, rfl, hw⟩
  · rintro ⟨e, he, rfl, hw⟩
    exact ⟨e, ⟨he, hw⟩, rfl⟩

/-- C7: the overlap scorer returns `shared` = the intersection of the two
lemma sets, `score` = shared weight over `current.total_weight` when the
total is positive and `0.0` otherwise, `new_weight` = the summed weight of
current entities whose lemma is absent from the previous analysis, and the
HTTP-response clamp `min(score, 1.0)` lies in `[0, 1]`.  The two
hypotheses are the `EntityAnalysis` data-model invariants (total = sum of
weights, weights nonnegative), which hold of every analysis the program
builds (`extract_weights_pos`, `extract_total_nonneg`). -/
theorem c7_entity_overlap_spec (cur prev : EntityAnalysis)
    (hT : cur.total_weight = (cur.entities.map (fun e => e.weight)).sum)
    (hW : ∀ e ∈ cur.entities, 0 ≤ e.weight) :
    (∀ l, l ∈ (calculate_entity_overlap cur prev).2.1 ↔
        (l ∈ cur.entities.map (fun e => e.lemma_) ∧
         l ∈ prev.entities.map (fun e => e.lemma_))) ∧
    (calculate_entity_overlap cur prev).1 =
      (if 0 < cur.total_weight then
        ((cur.entities.filter (fun e =>
          decide (e.lemma_ ∈ prev.entities.map (fun x => x.lemma_)))).map
            (fun e => e.weight)).sum / cur.total_weight
       else 0) ∧
    (calculate_entity_overlap cur prev).2.2 =
      ((cur.entities.filter (fun e =>
        decide (e.lemma_ ∉ prev.entities.map (fun x => x.lemma_)))).map
          (fun e => e.weight)).sum ∧
    0 ≤ min (calculate_entity_overlap cur prev).1 1 ∧
    min (calculate_entity_overlap cur prev).1 1 ≤ 1 := by
  have htw : 0 ≤ cur.total_weight := by
    rw [hT]
    apply List.sum_nonneg
    intro x hx
    obtain ⟨e, he, rfl⟩ := List.mem_map.mp hx
    exact hW e he
  refine ⟨?_, ?_, ?_, ?_, min_le_right _ _⟩
  · intro l
    rw [calculate_entity_overlap_eq]
    simp only [List.mem_filter, decide_eq_true_eq, mem_get_entity_set]
  · rw [calculate_entity_overlap_eq]
    dsimp only
    rcases eq_or_lt_of_le htw with h0 | h0
    · rw [if_pos h0.symm, if_neg (by rw [← h0]; exact lt_irrefl 0)]
    · rw [if_neg (by exact fun h => absurd h (ne_of_gt h0)), if_pos h0]
  · rw [calculate_entity_overlap_eq]
  · exact le_min (overlap_score_nonneg cur prev hW htw) zero_le_one

/-- C7 witness: the theorem applied to a concrete pair of analyses. -/
theorem c7_entity_overlap_spec_witness :
    0 ≤ min (calculate_entity_overlap
      ⟨[⟨"apple", "apple", "NOUN", 1⟩], 1, []⟩
      ⟨[⟨"apple", "apple", "NOUN", 1⟩], 1, []⟩).1 1 :=
  (c7_entity_overlap_spec
    ⟨[⟨"apple", "apple", "NOUN", 1⟩], 1, []⟩
    ⟨[⟨"apple", "apple", "NOUN", 1⟩], 1, []⟩
    (by with_unfolding_all decide)
    (by with_unfolding_all decide)).2.2.2.1

/-- C5 counterexample: with thresholds `stay = 0 < branch = 1` and
`sim = 1/2 ≤ branch`, the code returns `"STAY"`, not
`"BRANCH_NEW_CLUSTER"` as the claim's third iff (quantified over every
pair of thresholds) would require. -/
theorem c5_counterexample :
    driftAction (1/2) 0 1 = "STAY" ∧ ((1 : ℚ)/2 ≤ 1) ∧
    ("STAY" : String) ≠ "BRANCH_NEW_CLUSTER" := by
  refine ⟨?_, by norm_num, by decide⟩
  rw [driftAction, if_pos (by norm_num)]

/-- C5 (amended): when `branch_threshold ≤ stay_threshold` (as in the
defaults 0.15 ≤ 0.38), the `/drift` action is `"STAY"` iff
`sim > stay_threshold`, `"BRANCH_SAME_CLUSTER"` iff
`branch_threshold < sim ≤ stay_threshold`, and `"BRANCH_NEW_CLUSTER"` iff
`sim ≤ branch_threshold`; and for any fixed thresholds the action is
monotone in `sim`. -/
theorem c5_drift_action_mapping (sim stay_threshold branch_threshold : ℚ)
    (hbs : branch_threshold ≤ stay_threshold) :
    ((driftAction sim stay_threshold branch_threshold = "STAY" ↔
        stay_threshold < sim) ∧
     (driftAction sim stay_threshold branch_threshold = "BRANCH_SAME_CLUSTER" ↔
        (branch_threshold < sim ∧ sim ≤ stay_threshold)) ∧
     (driftAction sim stay_threshold branch_threshold = "BRANCH_NEW_CLUSTER" ↔
        sim ≤ branch_threshold)) ∧
    ∀ sim' : ℚ, sim ≤ sim' →
      actionRank (driftAction sim stay_threshold branch_threshold) ≤
        actionRank (driftAction sim' stay_threshold branch_threshold) := by
  constructor
  · unfold driftAction
    split_ifs with h1 h2
    · exact ⟨⟨fun _ => h1, fun _ => rfl⟩,
        ⟨fun hc => absurd hc (by decide), fun hc => absurd h1 (not_lt.mpr hc.2)⟩,
        ⟨fun hc => absurd hc (by decide),
         fun hle => absurd h1 (not_lt.mpr (le_trans hle hbs))⟩⟩
    · exact ⟨⟨fun hc => absurd hc (by decide), fun hst => absurd hst h1⟩,
        ⟨fun _ => ⟨h2, not_lt.mp h1⟩, fun _ => rfl⟩,
        ⟨fun hc => absurd hc (by decide), fun hle => absurd h2 (not_lt.mpr hle)⟩⟩
    · exact ⟨⟨fun hc => absurd hc (by decide), fun hst => absurd hst h1⟩,
        ⟨fun hc => absurd hc (by decide), fun hc => absurd hc.1 h2⟩,
        ⟨fun _ => not_lt.mp h2, fun _ => rfl⟩⟩
  · intro sim' hss
    unfold driftAction
    split_ifs <;> simp [actionRank] <;> linarith

/-- C5 witness: the amended mapping applied at the default thresholds
(0.38 / 0.15) and `sim = 1/2`. -/
theorem c5_drift_action_mapping_witness :
    driftAction (1/2) (38/100) (15/100) = "STAY" := by
  have h := c5_drift_action_mapping (1/2) (38/100) (15/100) (by norm_num)
  exact (h.1.1).mpr (by norm_num)

/-- An analyzer verdict with only `has_preference` set. -/
def prefAnalysis : MessageAnalysis :=
  ⟨false, false, true, false, emptyEntityAnalysis, false, false, none, none⟩

/-- An analyzer verdict with only `has_anaphoric_ref` set. -/
def anaphAnalysis : MessageAnalysis :=
  ⟨false, true, false, false, emptyEntityAnalysis, false, false, none, none⟩

/-- C2: if the current message's analysis has `has_preference`,
`/analyze-drift` returns `boosted_similarity = raw_similarity`,
`boost_multiplier = 1.0`, and `boosts_applied = ["preference_detected"]`,
applying no other rule. -/
theorem c2_preference_short_circuit (current : String)
    (ca pa : MessageAnalysis) (raw : ℚ) (h : ca.has_preference = true) :
    (analyze_drift current ca pa raw).boosted_similarity = raw ∧
    (analyze_drift current ca pa raw).boost_multiplier = 1 ∧
    (analyze_drift current ca pa raw).boosts_applied = ["preference_detected"] := by
  refine ⟨?_, ?_, ?_⟩ <;> simp [analyze_drift, h]

/-- C2 witness: the short-circuit on a concrete request. -/
theorem c2_preference_short_circuit_witness :
    (analyze_drift "hello" prefAnalysis plainAnalysis 0).boosts_applied =
      ["preference_detected"] :=
  (c2_preference_short_circuit "hello" prefAnalysis plainAnalysis 0 rfl).2.2

/-- C4 counterexample: a call that reaches the rule pipeline (no
short-circuit; `boosts_applied = ["response_particle"]`) with
`raw = -1/2 ≠ 0`: the code returns `boost_multiplier = 1.0`, which differs
from `boosted/raw = (11/20)/(-1/2)` — refuting both directions of the
claim (`multiplier = boosted/raw` for nonzero raw, and `multiplier = 1.0`
exactly when `raw = 0`). -/
theorem c4_counterexample :
    (analyze_drift "yes" plainAnalysis plainAnalysis (-(1 : ℚ)/2)).boosts_applied =
      ["response_particle"] ∧
    (analyze_drift "yes" plainAnalysis plainAnalysis (-(1 : ℚ)/2)).raw_similarity ≠ 0 ∧
    (analyze_drift "yes" plainAnalysis plainAnalysis (-(1 : ℚ)/2)).boost_multiplier = 1 ∧
    (analyze_drift "yes" plainAnalysis plainAnalysis (-(1 : ℚ)/2)).boost_multiplier ≠
      (analyze_drift "yes" plainAnalysis plainAnalysis (-(1 : ℚ)/2)).boosted_similarity /
        (analyze_drift "yes" plainAnalysis plainAnalysis (-(1 : ℚ)/2)).raw_similarity := by
  with_unfolding_all decide

/-- C4 (amended): for every call that reaches the rule pipeline, the
returned `boost_multiplier` equals `boosted_similarity / raw_similarity`
when `raw_similarity > 0`, and equals `1.0` when `raw_similarity ≤ 0`
(including every negative raw). -/
theorem c4_boost_multiplier (current : String) (ca pa : MessageAnalysis) (raw : ℚ)
    (h1 : ca.has_preference = false)
    (h2 : (ca.has_topic_pivot || regexFound TOPIC_PIVOT_PATTERNS current) = false) :
    (analyze_drift current ca pa raw).boost_multiplier =
      (if 0 < raw then (analyze_drift current ca pa raw).boosted_similarity / raw
       else 1) := by
  simp only [analyze_drift, h1, h2, Bool.false_eq_true, if_false]

/-- C4 witness: the amended statement at a concrete pipeline call with
positive raw similarity. -/
theorem c4_boost_multiplier_witness :
    (analyze_drift "yes" plainAnalysis plainAnalysis (1/4)).boost_multiplier =
      (if 0 < (1/4 : ℚ) then
        (analyze_drift "yes" plainAnalysis plainAnalysis (1/4)).boosted_similarity /
          (1/4 : ℚ)
       else 1) :=
  c4_boost_multiplier "yes" plainAnalysis plainAnalysis (1/4) rfl
    (by with_unfolding_all decide)

theorem floorStep_nonneg (words : List String) (q : Bool) (st : ℚ × List String)
    (h : 0 ≤ st.1) : 0 ≤ (floorStep words q st).1 := by
  simp only [floorStep]
  split_ifs
  · exact le_trans h (le_max_left _ _)
  · exact le_trans h (le_max_left _ _)
  · exact h

theorem qaStep_nonneg (pq cq : Bool) (n : ℕ) (st : ℚ × List String)
    (h : 0 ≤ st.1) : 0 ≤ (qaStep pq cq n st).1 := by
  simp only [qaStep]
  split_ifs
  · exact mul_nonneg h (by norm_num [QA_BOOST_FACTOR])
  · exact h

theorem anaphoricStep_nonneg (ca : MessageAnalysis) (prevE : EntityAnalysis)
    (st : ℚ × List String) (h : 0 ≤ st.1) : 0 ≤ (anaphoricStep ca prevE st).1 := by
  simp only [anaphoricStep]
  split_ifs
  · exact mul_nonneg h (by norm_num [ANAPHORIC_BOOST_FACTOR])
  · exact mul_nonneg (le_trans h (le_max_left _ _))
      (by norm_num [ANAPHORIC_BOOST_FACTOR])
  · exact h

theorem questionStep_nonneg (cq : Bool) (st : ℚ × List String)
    (h : 0 ≤ st.1) : 0 ≤ (questionStep cq st).1 := by
  simp only [questionStep]
  split_ifs
  · exact mul_nonneg h (by norm_num [RECENCY_BOOST_FACTOR])
  · exact h

theorem overlapStep_nonneg (hov : Bool) (score : ℚ) (st : ℚ × List String)
    (hsc : 0 ≤ score) (h : 0 ≤ st.1) : 0 ≤ (overlapStep hov score st).1 := by
  simp only [overlapStep]
  split_ifs
  · apply mul_nonneg h
    have hmin : 0 ≤ min score 1 := le_min hsc zero_le_one
    have hf : (ENTITY_OVERLAP_BOOST_FACTOR - 1) = 1 := by
      norm_num [ENTITY_OVERLAP_BOOST_FACTOR]
    rw [hf]
    linarith
  · exact h

/-- C1 counterexample: a raw cosine of `-1/2` (attainable, e.g. for unit
vectors at 120°) passes through the rule pipeline untouched when no rule
fires, so the returned `boosted_similarity` is `-1/2 < 0`. -/
theorem c1_counterexample :
    ((-1 : ℚ) ≤ -(1 : ℚ)/2 ∧ -(1 : ℚ)/2 ≤ 1) ∧
    (analyze_drift "zebra giraffe lion" plainAnalysis plainAnalysis
      (-(1 : ℚ)/2)).boosted_similarity < 0 := by
  with_unfolding_all decide

/-- C1 (amended): for every call of `/analyze-drift` with a raw cosine in
`[-1, 1]`, the returned `boosted_similarity` is at most 1; and whenever
the raw cosine is nonnegative, it lies in `[0, 1]`.  (For a negative raw
cosine the value can be negative — see the counterexample.)  The two
entity-weight hypotheses are the `EntityAnalysis` invariants established
by the extractor (`extract_weights_pos`, `extract_total_nonneg`). -/
theorem c1_boosted_bounds (current : String) (ca pa : MessageAnalysis) (raw : ℚ)
    (hlo : -1 ≤ raw) (hhi : raw ≤ 1)
    (hW : ∀ e ∈ ca.all_entities.entities, 0 ≤ e.weight)
    (hT : 0 ≤ ca.all_entities.total_weight) :
    (analyze_drift current ca pa raw).boosted_similarity ≤ 1 ∧
    (0 ≤ raw → 0 ≤ (analyze_drift current ca pa raw).boosted_similarity) := by
  have hscore : 0 ≤ (calculate_entity_overlap ca.all_entities pa.all_entities).1 :=
    overlap_score_nonneg _ _ hW hT
  by_cases h1 : ca.has_preference = true
  · constructor
    · simp [analyze_drift, h1, hhi]
    · intro hr
      simp [analyze_drift, h1, hr]
  · have h1' : ca.has_preference = false := by simpa using h1
    by_cases h2 : (ca.has_topic_pivot || regexFound TOPIC_PIVOT_PATTERNS current) = true
    · constructor
      · simp [analyze_drift, h1', h2, hhi]
      · intro hr
        simp [analyze_drift, h1', h2, hr]
    · have h2' : (ca.has_topic_pivot || regexFound TOPIC_PIVOT_PATTERNS current) = false := by
        simpa using h2
      constructor
      · simp only [analyze_drift, h1', h2', Bool.false_eq_true, if_false]
        exact min_le_right _ _
      · intro hr
        simp only [analyze_drift, h1', h2', Bool.false_eq_true, if_false]
        refine le_min ?_ zero_le_one
        exact overlapStep_nonneg _ _ _ hscore
          (questionStep_nonneg _ _
            (anaphoricStep_nonneg _ _ _
              (qaStep_nonneg _ _ _ _
                (floorStep_nonneg _ _ _ hr))))

/-- C1 witness: the amended bounds at a concrete pipeline call. -/
theorem c1_boosted_bounds_witness :
    (analyze_drift "zebra giraffe lion" plainAnalysis plainAnalysis
      (1/4)).boosted_similarity ≤ 1 := by
  have h := c1_boosted_bounds "zebra giraffe lion" plainAnalysis plainAnalysis (1/4)
    (by norm_num) (by norm_num)
    (by intro e he; simp [plainAnalysis, emptyEntityAnalysis] at he)
    (by norm_num [plainAnalysis, emptyEntityAnalysis])
  exact h.1

theorem new_entities_filter_eq (cur prev : EntityAnalysis) :
    cur.entities.filter (fun e =>
      decide (e.lemma_ ∈ (get_entity_set cur).filter
        (fun l => decide (l ∉ get_entity_set prev)))) =
    cur.entities.filter (fun e =>
      decide (e.lemma_ ∉ prev.entities.map (fun x => x.lemma_))) := by
  apply List.filter_congr
  intro e he
  have hc : e.lemma_ ∈ get_entity_set cur :=
    (mem_get_entity_set cur e.lemma_).mpr (List.mem_map_of_mem _ he)
  simp [List.mem_filter, hc, mem_get_entity_set]

theorem high_value_new_filter_eq (cur prev : EntityAnalysis) :
    cur.entities.filter (fun e =>
      decide (e.lemma_ ∈ (get_entity_set cur).filter
        (fun l => decide (l ∉ get_entity_set prev))) &&
      decide ((2 : ℚ) ≤ e.weight)) =
    cur.entities.filter (fun e =>
      decide (e.lemma_ ∉ prev.entities.map (fun x => x.lemma_)) &&
      decide ((2 : ℚ) ≤ e.weight)) := by
  apply List.filter_congr
  intro e he
  have hc : e.lemma_ ∈ get_entity_set cur :=
    (mem_get_entity_set cur e.lemma_).mpr (List.mem_map_of_mem _ he)
  simp [List.mem_filter, hc, mem_get_entity_set]

/-- C3: when the current message has an anaphoric reference (and the
short-circuits did not fire, so this rule runs), the floor-suppression
predicate holds iff `has_preference`, `has_topic_pivot`, `pivot_detected`,
the summed weight of current entities whose lemma is not among the
previous entity lemmas is ≥ 4.0, or at least two such new entities have
weight ≥ 2.0; if it is false the rule sets
`boosted ← max(boosted, 0.45)` then multiplies by 1.5 with tag
`anaphoric_ref`, and if it is true it only multiplies by 1.5 with tag
`anaphoric_ref_weak`. -/
theorem c3_anaphoric_floor_suppression (ca : MessageAnalysis)
    (prevE : EntityAnalysis) (b : ℚ) (l : List String)
    (h : ca.has_anaphoric_ref = true) :
    (should_suppress_anaphoric_floor ca prevE = true ↔
      (ca.has_preference = true ∨ ca.has_topic_pivot = true ∨
       ca.pivot_detected = true ∨
       (4 : ℚ) ≤ ((ca.all_entities.entities.filter (fun e =>
           decide (e.lemma_ ∉ prevE.entities.map (fun x => x.lemma_)))).map
             (fun e => e.weight)).sum ∨
       2 ≤ (ca.all_entities.entities.filter (fun e =>
           decide (e.lemma_ ∉ prevE.entities.map (fun x => x.lemma_)) &&
           decide ((2 : ℚ) ≤ e.weight))).length)) ∧
    anaphoricStep ca prevE (b, l) =
      (if should_suppress_anaphoric_floor ca prevE then
        (b * (1.5 : ℚ), l ++ ["anaphoric_ref_weak"])
       else (max b (0.45 : ℚ) * (1.5 : ℚ), l ++ ["anaphoric_ref"])) := by
  constructor
  · simp only [should_suppress_anaphoric_floor]
    rw [new_entities_filter_eq ca.all_entities prevE,
        high_value_new_filter_eq ca.all_entities prevE]
    split_ifs with hp hv hd h4w h2c <;> simp_all
  · simp only [anaphoricStep, h, if_true, ANAPHORIC_BOOST_FACTOR,
      ANAPHORIC_SIMILARITY_FLOOR]

/-- C3 witness: the rule applied at a concrete non-suppressed state. -/
theorem c3_anaphoric_floor_suppression_witness :
    anaphoricStep anaphAnalysis emptyEntityAnalysis (0, []) =
      (max 0 (0.45 : ℚ) * (1.5 : ℚ), [] ++ ["anaphoric_ref"]) := by
  have h := (c3_anaphoric_floor_suppression anaphAnalysis emptyEntityAnalysis
    0 [] rfl).2
  rw [h, if_neg]
  intro hc
  exact absurd hc (by with_unfolding_all decide)

theorem fallbackJoin_empty : fallbackJoin "" = "" := by
  with_unfolding_all rfl

/-- One batch element equals `preprocess` of the original text, given the
analyzer contract (`doc.text` reconstructs the input; the empty string
parses to no tokens). -/
theorem preprocess_pointwise (nlp : String → Doc)
    (hText : ∀ s, (nlp s).text = s) (hEmpty : (nlp "").tokens = [])
    (t : String) :
    (if (keptLemmas (nlp (if isBlank t then "" else cleanText t))).length < 2 then
      fallbackJoin (nlp (if isBlank t then "" else cleanText t)).text
     else " ".intercalate (keptLemmas (nlp (if isBlank t then "" else cleanText t)))) =
    preprocess nlp t := by
  by_cases hb : isBlank t = true
  · have h0 : keptLemmas (nlp "") = [] := by simp [keptLemmas, hEmpty]
    simp [preprocess, hb, h0, hText, fallbackJoin_empty]
  · have hb' : isBlank t = false := by simpa using hb
    simp only [preprocess, hb', Bool.false_eq_true, if_false, hText]

/-- C8: `preprocess_batch` is pointwise equivalent to `preprocess`: the
output list is the elementwise image of `preprocess`, has the same length,
and agrees at every index (so empty or whitespace-only inputs map to `""`
at the same position and are never dropped).  The two hypotheses are the
Analyzer Capability contract: a parse remembers its input text, and the
empty string parses to no tokens. -/
theorem c8_preprocess_batch_pointwise (nlp : String → Doc) (ts : List String)
    (hText : ∀ s, (nlp s).text = s) (hEmpty : (nlp "").tokens = []) :
    preprocess_batch nlp ts = ts.map (preprocess nlp) ∧
    (preprocess_batch nlp ts).length = ts.length ∧
    ∀ i : ℕ, (preprocess_batch nlp ts)[i]? = (ts[i]?).map (preprocess nlp) := by
  have hmain : preprocess_batch nlp ts = ts.map (preprocess nlp) := by
    cases ts with
    | nil => simp [preprocess_batch]
    | cons a as =>
      simp only [preprocess_batch, List.isEmpty_cons, Bool.false_eq_true, if_false,
        List.map_map]
      refine List.map_congr_left ?_
      intro t _
      exact preprocess_pointwise nlp hText hEmpty t
  refine ⟨hmain, by rw [hmain, List.length_map], fun i => by
    rw [hmain, List.getElem?_map]⟩

/-- A minimal analyzer satisfying the capability contract used by C8:
every text parses to a document with no tokens. -/
def trivNlp (s : String) : Doc := ⟨s, [], [], []⟩

/-- C8 witness: the batch equivalence applied to a concrete analyzer and
a concrete list containing a whitespace-only text. -/
theorem c8_preprocess_batch_pointwise_witness :
    preprocess_batch trivNlp ["Hello there!", " "] =
      ["Hello there!", " "].map (preprocess trivNlp) :=
  (c8_preprocess_batch_pointwise trivNlp ["Hello there!", " "]
    (fun _ => rfl) rfl).1

/-- A possible analyzer behaviour consistent with the capability
interface: whitespace tokenization where each token is its own lemma
(spaCy's lemma for function words such as "the" or "that" is the word
itself). -/
def demoNlp (s : String) : Doc :=
  ⟨s, (pySplit s).map (fun w => ⟨w, w, "X", false, false, false⟩), [], []⟩

/-- C9: there is an input on which `preprocess` returns tokens that belong
to `REMOVE_WORDS`: with input `"the that"` both lemmas are removed, fewer
than 2 lemmas survive, and the fallback re-splits the cleaned text and
removes only the seven `basic_filter` words and length-≤1 tokens, so the
removed words `"the"` and `"that"` reappear verbatim in the output. -/
theorem c9_fallback_reintroduces_remove_words :
    preprocess demoNlp "the that" = "the that" ∧
    "the" ∈ REMOVE_WORDS ∧ "that" ∈ REMOVE_WORDS ∧
    "the" ∉ basicFilter ∧ "that" ∉ basicFilter := by
  with_unfolding_all decide

/-- C10: `/analyze-message` computes `current_has_anaphoric_ref` as the
parser-based detector ORed with the `ANAPHORIC_PATTERNS` regex on the raw
current text, while the analysis view of `/analyze-drift` uses the
parser-based detector alone — so whenever the parser flag is false and the
regex matches, the two endpoints disagree on this field. -/
theorem c10_anaphoric_field_divergence (ca pa : MessageAnalysis)
    (current : String) (raw : ℚ)
    (h1 : ca.has_anaphoric_ref = false)
    (h2 : regexFound ANAPHORIC_PATTERNS current = true) :
    (analyze_message ca pa current).current_has_anaphoric_ref = true ∧
    (analyze_drift current ca pa raw).analysis.current_has_anaphoric_ref = false := by
  constructor
  · simp [analyze_message, h2]
  · simp only [analyze_drift]
    split_ifs <;> simp [h1]

/-- C10 witness: the divergence on the concrete pair
(current `"the same"`, previous anything) under an analyzer verdict whose
parser-based detector is false: `"the same"` matches the regex. -/
theorem c10_anaphoric_field_divergence_witness :
    (analyze_message plainAnalysis plainAnalysis "the same").current_has_anaphoric_ref
        = true ∧
    (analyze_drift "the same" plainAnalysis plainAnalysis
        0).analysis.current_has_anaphoric_ref = false :=
  c10_anaphoric_field_divergence plainAnalysis plainAnalysis "the same" 0 rfl
    (by with_unfolding_all decide)

end DriftOS
